import Mathlib

/-!
Verification of the upload lifecycle and case-file consistency subsystem of
the cellebrite-api repository (src/handlers/upload.js, exposed through the
concatenated source file src/src/utils/response.js).

The embedding models:
  * File records stored in the metadata store (DynamoDB FILES_TABLE),
  * Case records with their denormalized aggregate metadata (CASES_TABLE),
  * the object store (S3) as the list of keys currently holding an object,
  * the handlers getPresignedUrl, confirmUpload, updateCaseFileStats,
    deleteFile, getCaseFiles, getDownloadUrl, getUploadStats and
    cleanupExpiredUploads as pure state transformers.

Timestamps are natural numbers: the source stores ISO-8601 strings whose
lexicographic order coincides with chronological order, and compares them
either directly (the DynamoDB filter expiresAt < :now) or through Date
objects, so Nat with its order is a faithful abstraction.  The JavaScript
new Date(expiresAt) < new Date() test is the strict comparison
expiresAt < now.  Nondeterministic inputs of the source (uuid-generated
file ids and keys, the wall clock) are passed as explicit parameters.
The best-effort call to updateCaseFileStats, wrapped in try/catch in the
source, is modelled by a Boolean statsFails parameter selecting whether
that call throws (in which case its state change is not applied).
-/

namespace CellebriteApi

/-- A record of the FILES_TABLE, as written by getPresignedUrl and mutated
by confirmUpload.  uploadedAt is absent on a freshly created pending record
and set on confirmation. -/
structure FileRecord where
  id : String
  fileKey : String
  fileName : String
  originalName : String
  fileType : String
  fileSize : Nat
  caseId : String
  captureType : String
  uploadedBy : String
  status : String
  createdAt : Nat
  uploadedAt : Option Nat
  expiresAt : Nat
  checksum : Option String
  deriving DecidableEq, Repr

/-- A record of the CASES_TABLE restricted to the fields the upload
subsystem touches: the four denormalized aggregate fields (stored under
metadata.* in the source) and updatedAt. -/
structure CaseRecord where
  id : String
  totalScreenshots : Nat
  totalVideos : Nat
  totalFileSize : Nat
  lastActivity : Nat
  updatedAt : Nat
  deriving DecidableEq, Repr

/-- The shared mutable state: both DynamoDB tables and the set of S3 keys
currently holding an object. -/
structure World where
  files : List FileRecord
  cases : List CaseRecord
  s3 : List String
  deriving DecidableEq, Repr

/-- Point lookup of a File record by primary key id (GetCommand on
FILES_TABLE). -/
def findFile (w : World) (fileId : String) : Option FileRecord :=
  w.files.find? (fun f => f.id == fileId)

/-- Point lookup of a Case record by primary key id. -/
def findCase (w : World) (caseId : String) : Option CaseRecord :=
  w.cases.find? (fun c => c.id == caseId)

/-- checkCaseExists: GetCommand on CASES_TABLE, truthiness of the item. -/
def checkCaseExists (w : World) (caseId : String) : Bool :=
  w.cases.any (fun c => c.id == caseId)

/-- The allowedTypes table of getPresignedUrl. -/
def allowedTypes (captureType : String) : List String :=
  if captureType == "screenshot" then
    ["image/png", "image/jpeg", "image/webp", "image/gif"]
  else if captureType == "video" then
    ["video/webm", "video/mp4", "video/quicktime"]
  else []

/-- 100 MB upload cap of getPresignedUrl. -/
def maxFileSize : Nat := 100 * 1024 * 1024

/-- Presigned-URL validity window in seconds (expiresIn = 3600). -/
def uploadExpiresIn : Nat := 3600

/-- The uploadedAt value a record contributes when sorted or maximised:
the Option collapsed to a number (completed records written by
confirmUpload always carry some timestamp). -/
def uploadedAtVal (f : FileRecord) : Nat := f.uploadedAt.getD 0

/-- One insertion step of sorting by uploadedAt descending, the order the
source requests with sort((a, b) => new Date(b.uploadedAt) - new
Date(a.uploadedAt)). -/
def insertByUploadedDesc (f : FileRecord) : List FileRecord → List FileRecord
  | [] => [f]
  | g :: gs =>
    if uploadedAtVal g ≤ uploadedAtVal f then f :: g :: gs
    else g :: insertByUploadedDesc f gs

/-- Sorting by uploadedAt descending. -/
def sortByUploadedDesc : List FileRecord → List FileRecord
  | [] => []
  | f :: fs => insertByUploadedDesc f (sortByUploadedDesc fs)

/-- The query of updateCaseFileStats: all FILES_TABLE records for the case
(CaseIdIndex) filtered to status completed. -/
def completedFilesFor (files : List FileRecord) (caseId : String) : List FileRecord :=
  files.filter (fun f => f.caseId == caseId && f.status == "completed")

/-- The four aggregate values computed by updateCaseFileStats before the
case write. -/
structure CaseStats where
  totalScreenshots : Nat
  totalVideos : Nat
  totalFileSize : Nat
  lastActivity : Nat
  deriving DecidableEq, Repr

/-- The pure computation inside updateCaseFileStats: counts by capture
type, reduce of fileSize, and lastActivity taken from the head of the list
sorted by uploadedAt descending, falling back to the current timestamp when
no completed file exists. -/
def computeCaseStats (files : List FileRecord) (caseId : String) (now : Nat) : CaseStats :=
  let fs := completedFilesFor files caseId
  { totalScreenshots := (fs.filter (fun f => f.captureType == "screenshot")).length
    totalVideos := (fs.filter (fun f => f.captureType == "video")).length
    totalFileSize := fs.foldl (fun s f => s + f.fileSize) 0
    lastActivity :=
      match sortByUploadedDesc fs with
      | [] => now
      | f :: _ => uploadedAtVal f }

/-- updateCaseFileStats: recompute the aggregates from the completed files
of the case and overwrite metadata.totalScreenshots, metadata.totalVideos,
metadata.totalFileSize, metadata.lastActivity and updatedAt on the case
record (UpdateCommand on CASES_TABLE keyed by the case id). -/
def updateCaseFileStats (w : World) (caseId : String) (now : Nat) : World :=
  let s := computeCaseStats w.files caseId now
  { w with cases := w.cases.map (fun c =>
      if c.id == caseId then
        { c with
          totalScreenshots := s.totalScreenshots
          totalVideos := s.totalVideos
          totalFileSize := s.totalFileSize
          lastActivity := s.lastActivity
          updatedAt := now }
      else c) }

/-- Outcome of getPresignedUrl, abstracting the HTTP envelope: Joi schema
violation (400), case not found (404), disallowed MIME type (400), size
above the cap (400), or the 200 payload echoing fileId and fileKey. -/
inductive PresignOutcome where
  | invalidRequest
  | caseNotFound
  | invalidFileType
  | fileTooLarge
  | ok (fileId fileKey : String)
  deriving DecidableEq, Repr

/-- getPresignedUrl: validate the schema (captureType must be screenshot or
video), check the case exists, check the MIME allow-list, check the size
cap, then write the pending File record (PutCommand replaces any item with
the same id) with expiresAt = now + 3600.  The generated uuid fileId and
the derived fileKey are explicit parameters. -/
def getPresignedUrl (w : World) (caseId captureType fileName fileType : String)
    (fileSize : Option Nat) (userId fileId fileKey : String) (now : Nat) :
    PresignOutcome × World :=
  if !(captureType == "screenshot" || captureType == "video") then
    (PresignOutcome.invalidRequest, w)
  else if !(checkCaseExists w caseId) then
    (PresignOutcome.caseNotFound, w)
  else if !((allowedTypes captureType).contains fileType) then
    (PresignOutcome.invalidFileType, w)
  else if (match fileSize with
           | some s => decide (maxFileSize < s)
           | none => false) then
    (PresignOutcome.fileTooLarge, w)
  else
    let pendingUpload : FileRecord :=
      { id := fileId
        fileKey := fileKey
        fileName := fileName
        originalName := fileName
        fileType := fileType
        fileSize := fileSize.getD 0
        caseId := caseId
        captureType := captureType
        uploadedBy := userId
        status := "pending"
        createdAt := now
        uploadedAt := none
        expiresAt := now + uploadExpiresIn
        checksum := none }
    (PresignOutcome.ok fileId fileKey,
      { w with files := pendingUpload :: w.files.filter (fun f => f.id != fileId) })

/-- Outcome of confirmUpload: record not found (404), session expired
(400), object missing in S3 (400), or the 200 payload echoing fileId and
fileKey. -/
inductive ConfirmOutcome where
  | notFound
  | expired
  | uploadNotFound
  | ok (fileId fileKey : String)
  deriving DecidableEq, Repr

/-- The UpdateCommand of confirmUpload applied to one record: on the record
keyed by fileId, set status completed, uploadedAt now, fileSize
actualFileSize, and checksum only when one was supplied. -/
def applyConfirm (fileId : String) (actualFileSize : Nat) (checksum : Option String)
    (now : Nat) (f : FileRecord) : FileRecord :=
  if f.id == fileId then
    { f with
      status := "completed"
      uploadedAt := some now
      fileSize := actualFileSize
      checksum := match checksum with
        | some c => some c
        | none => f.checksum }
  else f

/-- confirmUpload: look up the record by fileId, reject when absent; reject
when new Date(expiresAt) < new Date(), i.e. expiresAt < now; probe S3 at
the request-supplied fileKey and reject when no object is there; otherwise
update the record to completed and then, best-effort, recompute the case
aggregates (a throw there, statsFails = true, is caught and ignored). -/
def confirmUpload (w : World) (fileId fileKey : String) (actualFileSize : Nat)
    (checksum : Option String) (now : Nat) (statsFails : Bool) :
    ConfirmOutcome × World :=
  match findFile w fileId with
  | none => (ConfirmOutcome.notFound, w)
  | some uploadRecord =>
    if uploadRecord.expiresAt < now then
      (ConfirmOutcome.expired, w)
    else if !(w.s3.contains fileKey) then
      (ConfirmOutcome.uploadNotFound, w)
    else
      let w1 : World :=
        { w with files := w.files.map (applyConfirm fileId actualFileSize checksum now) }
      let w2 := if statsFails then w1 else updateCaseFileStats w1 uploadRecord.caseId now
      (ConfirmOutcome.ok fileId fileKey, w2)

/-- Outcome of deleteFile: file not found (404) or success (200). -/
inductive DeleteOutcome where
  | fileNotFound
  | ok
  deriving DecidableEq, Repr

/-- deleteFile: locate the owning record through the FileKeyIndex query
(first item), 404 when none; delete the S3 object tolerating failure;
delete the metadata record by its id; when the record carries a caseId,
best-effort recompute the case aggregates (statsFails models the caught
throw). -/
def deleteFile (w : World) (fileKey : String) (now : Nat) (statsFails : Bool) :
    DeleteOutcome × World :=
  match w.files.find? (fun f => f.fileKey == fileKey) with
  | none => (DeleteOutcome.fileNotFound, w)
  | some fileRecord =>
    let w1 : World := { w with s3 := w.s3.filter (fun k => k != fileKey) }
    let w2 : World := { w1 with files := w1.files.filter (fun f => f.id != fileRecord.id) }
    let w3 :=
      if fileRecord.caseId == "" then w2
      else if statsFails then w2
      else updateCaseFileStats w2 fileRecord.caseId now
    (DeleteOutcome.ok, w3)

/-- getCaseFiles: read-only listing — 404 on a missing case, otherwise the
completed records of the case, optionally filtered by captureType, sorted
by uploadedAt (descending default) and paginated.  The handler issues only
GetCommand, QueryCommand and S3 URL signing, so the state is returned
unchanged. -/
def getCaseFiles (w : World) (caseId : String) (captureType : Option String)
    (page limit : Nat) : Option (List FileRecord) × World :=
  if !(checkCaseExists w caseId) then (none, w)
  else
    let files := w.files.filter (fun f =>
      f.caseId == caseId && f.status == "completed" &&
        (match captureType with
         | some ct => f.captureType == ct
         | none => true))
    let sorted := sortByUploadedDesc files
    (some (((sorted.drop ((page - 1) * limit))).take limit), w)

/-- getDownloadUrl: read-only — locate the record through the FileKeyIndex
query, 404 when none, otherwise return its fileName and fileSize (the
signed URL itself is outside the model).  No write is issued. -/
def getDownloadUrl (w : World) (fileKey : String) :
    Option (String × Nat) × World :=
  match w.files.find? (fun f => f.fileKey == fileKey) with
  | none => (none, w)
  | some fileRecord => (some (fileRecord.fileName, fileRecord.fileSize), w)

/-- getUploadStats: read-only — with a caseId the handler removes the
status filter and queries every record of the case, otherwise it scans for
completed records; either way it then keeps records whose uploadedAt lies
at or after the cutoff (records with no uploadedAt compare as NaN and are
dropped).  Returns the count; no write is issued. -/
def getUploadStats (w : World) (caseId : Option String) (cutoff : Nat) :
    Nat × World :=
  let selected : List FileRecord :=
    match caseId with
    | some cid => w.files.filter (fun f => f.caseId == cid)
    | none => w.files.filter (fun f => f.status == "completed")
  let recent := selected.filter (fun f =>
    match f.uploadedAt with
    | some t => cutoff ≤ t
    | none => false)
  (recent.length, w)

/-- The reaper filter: status pending and expiresAt < now (the DynamoDB
scan compares the ISO strings, which agrees with the numeric order). -/
def isExpiredPending (f : FileRecord) (now : Nat) : Bool :=
  f.status == "pending" && f.expiresAt < now

/-- cleanupExpiredUploads: scan for pending records past expiry; for each,
attempt the S3 object deletion ignoring failure (the object may never have
been uploaded), then delete the metadata record by id and count it.
Returns the count of reaped records together with the new state. -/
def cleanupExpiredUploads (w : World) (now : Nat) : Nat × World :=
  let expiredUploads := w.files.filter (fun f => isExpiredPending f now)
  let s3After := w.s3.filter (fun k => !(expiredUploads.any (fun g => g.fileKey == k)))
  let filesAfter := w.files.filter (fun f => !(expiredUploads.any (fun g => g.id == f.id)))
  (expiredUploads.length, { w with files := filesAfter, s3 := s3After })

/-- Spec-side maximum of uploadedAt over a list of records. -/
def maxUploadedAt (fs : List FileRecord) : Nat :=
  fs.foldr (fun f m => Nat.max (uploadedAtVal f) m) 0

/-- The uploadedAt value of the head of a list, 0 for the empty list. -/
def headVal : List FileRecord → Nat
  | [] => 0
  | f :: _ => uploadedAtVal f

/-! Concrete fixtures used to evaluate the operations on explicit inputs. -/

/-- A case record with zeroed aggregates. -/
def mkCase (caseId : String) : CaseRecord :=
  { id := caseId, totalScreenshots := 0, totalVideos := 0, totalFileSize := 0
    lastActivity := 0, updatedAt := 0 }

/-- A pending record as getPresignedUrl writes it. -/
def mkPending (fileId fileKey caseId : String) (expiresAt : Nat) : FileRecord :=
  { id := fileId, fileKey := fileKey, fileName := "x.png", originalName := "x.png"
    fileType := "image/png", fileSize := 0, caseId := caseId
    captureType := "screenshot", uploadedBy := "u1", status := "pending"
    createdAt := 0, uploadedAt := none, expiresAt := expiresAt, checksum := none }

/-- A completed record as confirmUpload leaves it. -/
def mkCompleted (fileId fileKey caseId captureType : String)
    (fileSize uploadedAt expiresAt : Nat) : FileRecord :=
  { id := fileId, fileKey := fileKey, fileName := "x.png", originalName := "x.png"
    fileType := "image/png", fileSize := fileSize, caseId := caseId
    captureType := captureType, uploadedBy := "u1", status := "completed"
    createdAt := 0, uploadedAt := some uploadedAt, expiresAt := expiresAt
    checksum := none }

/-- C1 fixture: a pending record whose own key kA holds no object, while an
unrelated key kB does hold one. -/
def worldC1 : World :=
  { files := [mkPending "f1" "kA" "cA" 500], cases := [mkCase "cA"], s3 := ["kB"] }

/-- C2 fixture: a record already completed with fileSize 100 and uploadedAt
5, whose session window has not yet passed and whose object is in storage. -/
def worldC2 : World :=
  { files := [mkCompleted "f2" "k2" "cB" "screenshot" 100 5 500]
    cases := [mkCase "cB"], s3 := ["k2"] }

/-- C3 fixture: one completed screenshot, one completed video and one
pending record for case c3. -/
def worldC3 : World :=
  { files := [mkCompleted "f3a" "k3a" "c3" "screenshot" 100 10 500,
              mkCompleted "f3b" "k3b" "c3" "video" 200 30 500,
              mkPending "f3p" "k3p" "c3" 500]
    cases := [mkCase "c3"], s3 := ["k3a", "k3b"] }

/-- C3 fixture: the case record produced by recomputing the aggregates of
worldC3 for case c3 at time 50. -/
def caseC3After : CaseRecord :=
  { id := "c3", totalScreenshots := 1, totalVideos := 1, totalFileSize := 300
    lastActivity := 30, updatedAt := 50 }

/-- C4 fixture: a single pending record reachable through its fileKey. -/
def worldC4 : World :=
  { files := [mkPending "f4" "k4" "c4" 500], cases := [mkCase "c4"], s3 := [] }

/-- C5 fixture: a pending, unexpired record whose key k5 has no object. -/
def worldC5 : World :=
  { files := [mkPending "f5" "k5" "c5" 500], cases := [mkCase "c5"], s3 := [] }

/-- C6 fixture: a pending record expired at 50, its object present. -/
def worldC6 : World :=
  { files := [mkPending "f6" "k6" "c6" 50], cases := [mkCase "c6"], s3 := ["k6"] }

/-- C7 fixture: a case with no file records at all. -/
def worldC7 : World :=
  { files := [], cases := [mkCase "c7"], s3 := [] }

/-- C7 fixture: recomputation of worldC7 at time 0. -/
def worldC7a : World := updateCaseFileStats worldC7 "c7" 0

/-- C7 fixture: a case holding one completed screenshot. -/
def worldC7b : World :=
  { files := [mkCompleted "f7" "k7" "d7" "screenshot" 40 9 500]
    cases := [mkCase "d7"], s3 := ["k7"] }

/-- C7 fixture: the d7 case after the first recomputation, at time 3. -/
def caseC7bAfter1 : CaseRecord :=
  { id := "d7", totalScreenshots := 1, totalVideos := 0, totalFileSize := 40
    lastActivity := 9, updatedAt := 3 }

/-- C7 fixture: the d7 case after the second recomputation, at time 4. -/
def caseC7bAfter2 : CaseRecord :=
  { id := "d7", totalScreenshots := 1, totalVideos := 0, totalFileSize := 40
    lastActivity := 9, updatedAt := 4 }

/-- C8 fixture: a pending, unexpired record whose object is in storage, so
that confirmation reaches the mandatory update. -/
def worldC8 : World :=
  { files := [mkPending "f8" "k8" "c8" 500], cases := [mkCase "c8"], s3 := ["k8"] }

/-- C9 fixture: an expired pending record with no storage object, an
unexpired pending record, and a completed record. -/
def worldC9 : World :=
  { files := [mkPending "f9a" "k9a" "c9" 10,
              mkPending "f9b" "k9b" "c9" 500,
              mkCompleted "f9c" "k9c" "c9" "video" 70 20 500]
    cases := [mkCase "c9"], s3 := ["k9b", "k9c"] }

/-- C10 fixture: an existing empty case. -/
def worldC10 : World :=
  { files := [], cases := [mkCase "c10"], s3 := [] }

/-! General lemmas about the sorting helper and the aggregates. -/

theorem insertByUploadedDesc_ne_nil (f : FileRecord) (l : List FileRecord) :
    insertByUploadedDesc f l ≠ [] := by
  cases l with
  | nil => simp [insertByUploadedDesc]
  | cons g gs =>
    simp only [insertByUploadedDesc]
    split <;> simp

theorem headVal_insertByUploadedDesc (f : FileRecord) (l : List FileRecord) :
    headVal (insertByUploadedDesc f l) = Nat.max (uploadedAtVal f) (headVal l) := by
  cases l with
  | nil => simp [insertByUploadedDesc, headVal]
  | cons g gs =>
    simp only [insertByUploadedDesc]
    split
    next h =>
      simp only [headVal]
      exact (max_eq_left h).symm
    next h =>
      simp only [headVal]
      exact (max_eq_right (le_of_not_le h)).symm

theorem headVal_sortByUploadedDesc (l : List FileRecord) :
    headVal (sortByUploadedDesc l) = maxUploadedAt l := by
  induction l with
  | nil => rfl
  | cons f fs ih =>
    simp only [sortByUploadedDesc]
    rw [headVal_insertByUploadedDesc, ih]
    rfl

theorem sortByUploadedDesc_eq_nil_iff (l : List FileRecord) :
    sortByUploadedDesc l = [] ↔ l = [] := by
  cases l with
  | nil => simp [sortByUploadedDesc]
  | cons f fs => simp [sortByUploadedDesc, insertByUploadedDesc_ne_nil]

theorem foldl_fileSize_eq_sum (l : List FileRecord) (a : Nat) :
    l.foldl (fun s f => s + f.fileSize) a = a + (l.map FileRecord.fileSize).sum := by
  induction l generalizing a with
  | nil => simp
  | cons f fs ih => simp [ih, Nat.add_assoc]

theorem computeCaseStats_lastActivity (files : List FileRecord) (caseId : String) (now : Nat) :
    (computeCaseStats files caseId now).lastActivity =
      if completedFilesFor files caseId = [] then now
      else maxUploadedAt (completedFilesFor files caseId) := by
  simp only [computeCaseStats]
  split
  next hs => rw [if_pos ((sortByUploadedDesc_eq_nil_iff _).mp hs)]
  next f rest hs =>
    have hne : completedFilesFor files caseId ≠ [] := by
      intro h0
      rw [h0] at hs
      simp [sortByUploadedDesc] at hs
    rw [if_neg hne, ← headVal_sortByUploadedDesc, hs]
    rfl

/-- updateCaseFileStats never touches the FILES_TABLE. -/
theorem files_updateCaseFileStats (w : World) (caseId : String) (now : Nat) :
    (updateCaseFileStats w caseId now).files = w.files := rfl

/-- updateCaseFileStats never touches the object store. -/
theorem s3_updateCaseFileStats (w : World) (caseId : String) (now : Nat) :
    (updateCaseFileStats w caseId now).s3 = w.s3 := rfl

/-- The record update written by updateCaseFileStats. -/
def applyStats (s : CaseStats) (now : Nat) (c : CaseRecord) : CaseRecord :=
  { c with
    totalScreenshots := s.totalScreenshots
    totalVideos := s.totalVideos
    totalFileSize := s.totalFileSize
    lastActivity := s.lastActivity
    updatedAt := now }

theorem findCase_updateCaseFileStats (w : World) (caseId : String) (now : Nat) :
    findCase (updateCaseFileStats w caseId now) caseId =
      (findCase w caseId).map
        (applyStats (computeCaseStats w.files caseId now) now) := by
  simp only [findCase, updateCaseFileStats, List.find?_map]
  have hp : ((fun c : CaseRecord => c.id == caseId) ∘ fun c =>
      if c.id == caseId then
        { c with
          totalScreenshots := (computeCaseStats w.files caseId now).totalScreenshots
          totalVideos := (computeCaseStats w.files caseId now).totalVideos
          totalFileSize := (computeCaseStats w.files caseId now).totalFileSize
          lastActivity := (computeCaseStats w.files caseId now).lastActivity
          updatedAt := now }
      else c) = (fun c : CaseRecord => c.id == caseId) := by
    funext c
    by_cases h : c.id = caseId <;> simp [h]
  rw [hp]
  cases hf : w.cases.find? (fun c : CaseRecord => c.id == caseId) with
  | none => rfl
  | some c =>
    have hc : c.id = caseId := by simpa using List.find?_some hf
    simp [applyStats, hc]

/-- On the success path (record found, not expired, object present at the
request key), the FILES_TABLE after confirmUpload is the original table
with the UpdateCommand applied, independently of the best-effort stats
call. -/
theorem confirmUpload_success_files (w : World) (fileId fileKey : String)
    (actualFileSize : Nat) (checksum : Option String) (now : Nat) (statsFails : Bool)
    (fr : FileRecord) (hfind : findFile w fileId = some fr)
    (hexp : ¬ fr.expiresAt < now) (hmem : w.s3.contains fileKey = true) :
    (confirmUpload w fileId fileKey actualFileSize checksum now statsFails).2.files =
      w.files.map (applyConfirm fileId actualFileSize checksum now) := by
  simp only [confirmUpload, hfind]
  rw [if_neg hexp]
  simp only [hmem, Bool.not_true, Bool.false_eq_true, if_false]
  cases statsFails <;> rfl

/-- On the success path the outcome is the ok payload, independently of the
best-effort stats call. -/
theorem confirmUpload_success_outcome (w : World) (fileId fileKey : String)
    (actualFileSize : Nat) (checksum : Option String) (now : Nat) (statsFails : Bool)
    (fr : FileRecord) (hfind : findFile w fileId = some fr)
    (hexp : ¬ fr.expiresAt < now) (hmem : w.s3.contains fileKey = true) :
    (confirmUpload w fileId fileKey actualFileSize checksum now statsFails).1 =
      ConfirmOutcome.ok fileId fileKey := by
  simp only [confirmUpload, hfind]
  rw [if_neg hexp]
  simp only [hmem, Bool.not_true, Bool.false_eq_true, if_false]

/-- On the success path the object store is left unchanged, independently
of the best-effort stats call. -/
theorem confirmUpload_success_s3 (w : World) (fileId fileKey : String)
    (actualFileSize : Nat) (checksum : Option String) (now : Nat) (statsFails : Bool)
    (fr : FileRecord) (hfind : findFile w fileId = some fr)
    (hexp : ¬ fr.expiresAt < now) (hmem : w.s3.contains fileKey = true) :
    (confirmUpload w fileId fileKey actualFileSize checksum now statsFails).2.s3 = w.s3 := by
  simp only [confirmUpload, hfind]
  rw [if_neg hexp]
  simp only [hmem, Bool.not_true, Bool.false_eq_true, if_false]
  cases statsFails <;> rfl

/-- The applyConfirm update preserves the record id. -/
theorem applyConfirm_id (fileId : String) (actualFileSize : Nat)
    (checksum : Option String) (now : Nat) (f : FileRecord) :
    (applyConfirm fileId actualFileSize checksum now f).id = f.id := by
  unfold applyConfirm
  split <;> rfl

/-- The applyConfirm update preserves the stored fileKey. -/
theorem applyConfirm_fileKey (fileId : String) (actualFileSize : Nat)
    (checksum : Option String) (now : Nat) (f : FileRecord) :
    (applyConfirm fileId actualFileSize checksum now f).fileKey = f.fileKey := by
  unfold applyConfirm
  split <;> rfl

/-- The applyConfirm update writes no status other than completed. -/
theorem applyConfirm_status (fileId : String) (actualFileSize : Nat)
    (checksum : Option String) (now : Nat) (f : FileRecord) :
    (applyConfirm fileId actualFileSize checksum now f).status = f.status ∨
      (applyConfirm fileId actualFileSize checksum now f).status = "completed" := by
  unfold applyConfirm
  split
  · exact Or.inr rfl
  · exact Or.inl rfl

/-- confirmUpload never deletes a record: every record of the table is
still present afterwards (by id, with its fileKey intact), with either its
old status or the status completed. -/
theorem confirmUpload_preserves_records (w : World) (fileId fileKey : String)
    (actualFileSize : Nat) (checksum : Option String) (now : Nat) (statsFails : Bool)
    (f : FileRecord) (hf : f ∈ w.files) :
    ∃ f', f' ∈ (confirmUpload w fileId fileKey actualFileSize checksum now statsFails).2.files ∧
      f'.id = f.id ∧ f'.fileKey = f.fileKey ∧
      (f'.status = f.status ∨ f'.status = "completed") := by
  cases hfind : findFile w fileId with
  | none =>
    refine ⟨f, ?_, rfl, rfl, Or.inl rfl⟩
    simp [confirmUpload, hfind, hf]
  | some fr =>
    by_cases hexp : fr.expiresAt < now
    · refine ⟨f, ?_, rfl, rfl, Or.inl rfl⟩
      simp [confirmUpload, hfind, hexp, hf]
    · by_cases hmem : fileKey ∈ w.s3
      · have hc : w.s3.contains fileKey = true := by simpa using hmem
        refine ⟨applyConfirm fileId actualFileSize checksum now f, ?_,
          applyConfirm_id _ _ _ _ _, applyConfirm_fileKey _ _ _ _ _,
          applyConfirm_status _ _ _ _ _⟩
        rw [confirmUpload_success_files w fileId fileKey actualFileSize checksum now
          statsFails fr hfind hexp hc]
        exact List.mem_map_of_mem _ hf
      · refine ⟨f, ?_, rfl, rfl, Or.inl rfl⟩
        simp only [confirmUpload, hfind]
        rw [if_neg hexp]
        simp [hmem, hf]

/-! Claim theorems. -/

/-- Claim C5 (confirmed): for a pending, unexpired File record, a
confirmation whose storage probe finds no object at the supplied fileKey
returns the upload-not-found error and leaves the whole state — in
particular the record, still pending — unchanged. -/
theorem confirmUpload_missing_object_rejected (w : World) (fileId fileKey : String)
    (actualFileSize : Nat) (checksum : Option String) (now : Nat) (statsFails : Bool)
    (fr : FileRecord) (hfind : findFile w fileId = some fr)
    (_hpending : fr.status = "pending") (hnotexp : ¬ fr.expiresAt < now)
    (habsent : fileKey ∉ w.s3) :
    confirmUpload w fileId fileKey actualFileSize checksum now statsFails =
      (ConfirmOutcome.uploadNotFound, w) := by
  simp only [confirmUpload, hfind]
  rw [if_neg hnotexp]
  simp [habsent]

/-- Claim C5 witness: the concrete pending record f5 with no object at its
key k5 is rejected with upload-not-found and the state is untouched. -/
theorem confirmUpload_missing_object_rejected_witness :
    confirmUpload worldC5 "f5" "k5" 5 none 100 true =
      (ConfirmOutcome.uploadNotFound, worldC5) :=
  confirmUpload_missing_object_rejected worldC5 "f5" "k5" 5 none 100 true
    (mkPending "f5" "k5" "c5" 500) (by decide) (by decide) (by decide) (by decide)

/-- Claim C6 (confirmed): for a File record whose expiresAt lies strictly
before the current time, confirmation returns the session-expired error and
leaves the state unchanged, regardless of what the object store holds. -/
theorem confirmUpload_expired_rejected (w : World) (fileId fileKey : String)
    (actualFileSize : Nat) (checksum : Option String) (now : Nat) (statsFails : Bool)
    (fr : FileRecord) (hfind : findFile w fileId = some fr)
    (hexp : fr.expiresAt < now) :
    confirmUpload w fileId fileKey actualFileSize checksum now statsFails =
      (ConfirmOutcome.expired, w) := by
  simp only [confirmUpload, hfind]
  rw [if_pos hexp]

/-- Claim C6 witness: the record f6, expired at 50 and confirmed at 100, is
rejected with session-expired even though its object is in storage. -/
theorem confirmUpload_expired_rejected_witness :
    confirmUpload worldC6 "f6" "k6" 5 none 100 true =
      (ConfirmOutcome.expired, worldC6) :=
  confirmUpload_expired_rejected worldC6 "f6" "k6" 5 none 100 true
    (mkPending "f6" "k6" "c6" 50) (by decide) (by decide)

/-- Claim C1 counterexample: in worldC1 the record f1 stores fileKey kA,
storage holds an object only at kB, and confirming f1 with the unrelated
key kB succeeds: the record transitions to completed while keeping fileKey
kA, at which no object exists — so a success does not verify storage at the
record's own fileKey. -/
theorem confirmUpload_completes_without_object_at_record_key :
    (confirmUpload worldC1 "f1" "kB" 7 none 100 false).1 =
      ConfirmOutcome.ok "f1" "kB" ∧
    (findFile (confirmUpload worldC1 "f1" "kB" 7 none 100 false).2 "f1").map
      FileRecord.status = some "completed" ∧
    (findFile (confirmUpload worldC1 "f1" "kB" 7 none 100 false).2 "f1").map
      FileRecord.fileKey = some "kA" ∧
    "kA" ∉ (confirmUpload worldC1 "f1" "kB" 7 none 100 false).2.s3 := by
  refine ⟨by decide, by decide, by decide, by decide⟩

/-- Claim C1 (corrected): the storage probe of confirmUpload is performed
at the request-supplied fileKey, with no check that it equals the record's
stored fileKey.  What holds is: every confirmation that succeeds verified
an object at the supplied fileKey, and the object store is unchanged by the
confirmation, so that object still exists afterwards; only when the caller
supplies the record's own fileKey does success imply an object at the
record's key. -/
theorem confirmUpload_verifies_request_key (w : World) (fileId fileKey : String)
    (actualFileSize : Nat) (checksum : Option String) (now : Nat) (statsFails : Bool)
    (h : (confirmUpload w fileId fileKey actualFileSize checksum now statsFails).1 =
      ConfirmOutcome.ok fileId fileKey) :
    fileKey ∈ w.s3 ∧
    (confirmUpload w fileId fileKey actualFileSize checksum now statsFails).2.s3 = w.s3 := by
  cases hfind : findFile w fileId with
  | none => simp [confirmUpload, hfind] at h
  | some fr =>
    by_cases hexp : fr.expiresAt < now
    · simp [confirmUpload, hfind, hexp] at h
    · by_cases hmem : fileKey ∈ w.s3
      · have hc : w.s3.contains fileKey = true := by simpa using hmem
        exact ⟨hmem, confirmUpload_success_s3 w fileId fileKey actualFileSize checksum
          now statsFails fr hfind hexp hc⟩
      · simp [confirmUpload, hfind, hexp, hmem] at h

/-- Claim C1 witness: the successful confirmation of f1 with key kB
verified an object at kB, and the store still holds it afterwards. -/
theorem confirmUpload_verifies_request_key_witness :
    "kB" ∈ worldC1.s3 ∧
    (confirmUpload worldC1 "f1" "kB" 7 none 100 false).2.s3 = worldC1.s3 :=
  confirmUpload_verifies_request_key worldC1 "f1" "kB" 7 none 100 false (by decide)

/-- Claim C2 counterexample: the record f2 is already completed with
fileSize 100 and uploadedAt 5, yet a second confirmation (within the still
open session window, object present) is not rejected: it succeeds and
rewrites fileSize to 200 and uploadedAt to 10. -/
theorem confirmUpload_reconfirms_completed_record :
    (mkCompleted "f2" "k2" "cB" "screenshot" 100 5 500).status = "completed" ∧
    (confirmUpload worldC2 "f2" "k2" 200 none 10 false).1 =
      ConfirmOutcome.ok "f2" "k2" ∧
    (findFile (confirmUpload worldC2 "f2" "k2" 200 none 10 false).2 "f2").map
      FileRecord.fileSize = some 200 ∧
    (findFile (confirmUpload worldC2 "f2" "k2" 200 none 10 false).2 "f2").map
      FileRecord.uploadedAt = some (some 10) := by
  refine ⟨by decide, by decide, by decide, by decide⟩

/-- Claim C2 (corrected): confirmation of a nonexistent record is rejected
with the not-found error and changes nothing, and a confirmation only ever
writes the status completed — no record is deleted or moved to any other
status, so status flows only pending to completed.  However confirmUpload
does not check the current status: an already-completed record whose
session window is still open and whose object is present is re-confirmed
rather than rejected, and its fileSize and uploadedAt are overwritten. -/
theorem confirmUpload_notFound_and_status_monotone (w : World)
    (fileId fileKey : String) (actualFileSize : Nat) (checksum : Option String)
    (now : Nat) (statsFails : Bool) :
    (findFile w fileId = none →
      confirmUpload w fileId fileKey actualFileSize checksum now statsFails =
        (ConfirmOutcome.notFound, w)) ∧
    (∀ f, f ∈ w.files →
      ∃ f', f' ∈ (confirmUpload w fileId fileKey actualFileSize checksum now statsFails).2.files ∧
        f'.id = f.id ∧ f'.fileKey = f.fileKey ∧
        (f'.status = f.status ∨ f'.status = "completed")) := by
  constructor
  · intro hnone
    simp [confirmUpload, hnone]
  · intro f hf
    exact confirmUpload_preserves_records w fileId fileKey actualFileSize checksum
      now statsFails f hf

/-- Claim C2 witness: confirming a file id absent from worldC2 is rejected
with the not-found error and leaves the state unchanged. -/
theorem confirmUpload_notFound_and_status_monotone_witness :
    confirmUpload worldC2 "zz" "k2" 1 none 0 false =
      (ConfirmOutcome.notFound, worldC2) :=
  (confirmUpload_notFound_and_status_monotone worldC2 "zz" "k2" 1 none 0 false).1
    (by decide)

/-- Claim C3 (confirmed): after Case Aggregate Recomputation for a case,
the stored case record carries totalScreenshots and totalVideos equal to
the counts of completed File records of each capture type for the case,
totalFileSize equal to the sum of their fileSize values, updatedAt equal to
the recomputation time, and lastActivity equal to the maximum uploadedAt
over the completed records — or, when none exist, to the timestamp the case
record itself received (its updatedAt, the recomputation time). -/
theorem updateCaseFileStats_writes_aggregates (w : World) (caseId : String)
    (now : Nat) (c' : CaseRecord)
    (h : findCase (updateCaseFileStats w caseId now) caseId = some c') :
    c'.totalScreenshots =
      (completedFilesFor w.files caseId).countP (fun f => f.captureType == "screenshot") ∧
    c'.totalVideos =
      (completedFilesFor w.files caseId).countP (fun f => f.captureType == "video") ∧
    c'.totalFileSize =
      ((completedFilesFor w.files caseId).map FileRecord.fileSize).sum ∧
    c'.updatedAt = now ∧
    (completedFilesFor w.files caseId ≠ [] →
      c'.lastActivity = maxUploadedAt (completedFilesFor w.files caseId)) ∧
    (completedFilesFor w.files caseId = [] →
      c'.lastActivity = now ∧ c'.lastActivity = c'.updatedAt) := by
  rw [findCase_updateCaseFileStats] at h
  cases hf : findCase w caseId with
  | none =>
    rw [hf] at h
    simp at h
  | some c =>
    rw [hf] at h
    simp only [Option.map_some'] at h
    injection h with h2
    subst h2
    refine ⟨?_, ?_, ?_, rfl, ?_, ?_⟩
    · simp [applyStats, computeCaseStats, List.countP_eq_length_filter]
    · simp [applyStats, computeCaseStats, List.countP_eq_length_filter]
    · simp [applyStats, computeCaseStats, foldl_fileSize_eq_sum]
    · intro hne
      show (computeCaseStats w.files caseId now).lastActivity = _
      rw [computeCaseStats_lastActivity, if_neg hne]
    · intro hnil
      constructor
      · show (computeCaseStats w.files caseId now).lastActivity = now
        rw [computeCaseStats_lastActivity, if_pos hnil]
      · show (computeCaseStats w.files caseId now).lastActivity = now
        rw [computeCaseStats_lastActivity, if_pos hnil]

/-- Claim C3 witness: recomputing case c3 of worldC3 at time 50 writes one
screenshot, one video, total size 300, lastActivity 30 and updatedAt 50,
matching the counts, sum and maximum over its two completed records. -/
theorem updateCaseFileStats_writes_aggregates_witness :
    caseC3After.totalScreenshots =
      (completedFilesFor worldC3.files "c3").countP (fun f => f.captureType == "screenshot") ∧
    caseC3After.totalVideos =
      (completedFilesFor worldC3.files "c3").countP (fun f => f.captureType == "video") ∧
    caseC3After.totalFileSize =
      ((completedFilesFor worldC3.files "c3").map FileRecord.fileSize).sum ∧
    caseC3After.updatedAt = 50 ∧
    (completedFilesFor worldC3.files "c3" ≠ [] →
      caseC3After.lastActivity = maxUploadedAt (completedFilesFor worldC3.files "c3")) ∧
    (completedFilesFor worldC3.files "c3" = [] →
      caseC3After.lastActivity = 50 ∧ caseC3After.lastActivity = caseC3After.updatedAt) :=
  updateCaseFileStats_writes_aggregates worldC3 "c3" 50 caseC3After (by decide)

/-- Claim C4 counterexample: worldC4 holds a single pending record with
fileKey k4; deleteFile called with k4 succeeds and removes that pending
record from the metadata store, so the Reaper is not the only operation
that deletes pending records. -/
theorem deleteFile_removes_pending_record :
    (mkPending "f4" "k4" "c4" 500).status = "pending" ∧
    (deleteFile worldC4 "k4" 0 false).1 = DeleteOutcome.ok ∧
    findFile (deleteFile worldC4 "k4" 0 false).2 "f4" = none := by
  refine ⟨by decide, by decide, by decide⟩

/-- Claim C4 (corrected): deleteFile looks the record up by fileKey with no
status check, so it does delete a pending record when given that record's
key.  What holds for the remaining exposed operations: session creation
(with a fresh generated file id) keeps every pending record in the table,
confirmation never removes any record, and listing, download-URL and
statistics leave the state entirely unchanged. -/
theorem pending_records_survive_other_operations (w : World) (f : FileRecord)
    (hf : f ∈ w.files) (_hp : f.status = "pending") :
    (∀ caseId captureType fileName fileType fileSize userId fileId fileKey now,
      f.id ≠ fileId →
      f ∈ (getPresignedUrl w caseId captureType fileName fileType fileSize
            userId fileId fileKey now).2.files) ∧
    (∀ fileId fileKey actualFileSize checksum now statsFails,
      ∃ f', f' ∈ (confirmUpload w fileId fileKey actualFileSize
          checksum now statsFails).2.files ∧ f'.id = f.id) ∧
    (∀ caseId captureType page limit,
      (getCaseFiles w caseId captureType page limit).2 = w) ∧
    (∀ fileKey, (getDownloadUrl w fileKey).2 = w) ∧
    (∀ caseId cutoff, (getUploadStats w caseId cutoff).2 = w) := by
  refine ⟨?_, ?_, ?_, ?_, ?_⟩
  · intro caseId captureType fileName fileType fileSize userId fileId fileKey now hne
    simp only [getPresignedUrl]
    split
    · exact hf
    · split
      · exact hf
      · split
        · exact hf
        · split
          · exact hf
          · exact List.mem_cons_of_mem _ (List.mem_filter.mpr ⟨hf, by simpa using hne⟩)
  · intro fileId fileKey actualFileSize checksum now statsFails
    obtain ⟨f', hmem, hid, -, -⟩ := confirmUpload_preserves_records w fileId fileKey
      actualFileSize checksum now statsFails f hf
    exact ⟨f', hmem, hid⟩
  · intro caseId captureType page limit
    simp only [getCaseFiles]
    split <;> rfl
  · intro fileKey
    simp only [getDownloadUrl]
    split <;> rfl
  · intro caseId cutoff
    rfl

/-- Claim C4 witness: the pending record f4 is still present after a
session creation with a fresh id, and the download-URL operation leaves
worldC4 unchanged. -/
theorem pending_records_survive_other_operations_witness :
    mkPending "f4" "k4" "c4" 500 ∈
      (getPresignedUrl worldC4 "c4" "screenshot" "y.png" "image/png" none
        "u" "f9" "k9" 0).2.files ∧
    (getDownloadUrl worldC4 "k4").2 = worldC4 := by
  have h := pending_records_survive_other_operations worldC4
    (mkPending "f4" "k4" "c4" 500) (by decide) (by decide)
  exact ⟨h.1 "c4" "screenshot" "y.png" "image/png" none "u" "f9" "k9" 0 (by decide),
    h.2.2.2.1 "k4"⟩

/-- Claim C7 counterexample: case c7 has no completed File records; two
recomputations in a row, at times 0 and 1, write different lastActivity
values (each run writes its own current timestamp), so the four aggregate
fields are not identical across the two runs. -/
theorem updateCaseFileStats_empty_case_time_dependent :
    (findCase worldC7a "c7").map CaseRecord.lastActivity = some 0 ∧
    (findCase (updateCaseFileStats worldC7a "c7" 1) "c7").map
      CaseRecord.lastActivity = some 1 ∧
    (findCase worldC7a "c7").map CaseRecord.lastActivity ≠
      (findCase (updateCaseFileStats worldC7a "c7" 1) "c7").map
        CaseRecord.lastActivity := by
  refine ⟨by decide, by decide, by decide⟩

/-- Claim C7 (corrected): recomputing a case's aggregates twice in a row
with no intervening change to its File records yields identical
totalScreenshots, totalVideos and totalFileSize, and identical lastActivity
whenever at least one completed File record exists; with zero completed
records each run writes its own timestamp as lastActivity, so all four
fields agree only when the two runs carry the same timestamp. -/
theorem updateCaseFileStats_idempotent_on_nonempty (w : World) (caseId : String)
    (n1 n2 : Nat) (c1 c2 : CaseRecord)
    (h1 : findCase (updateCaseFileStats w caseId n1) caseId = some c1)
    (h2 : findCase (updateCaseFileStats (updateCaseFileStats w caseId n1) caseId n2)
      caseId = some c2) :
    c1.totalScreenshots = c2.totalScreenshots ∧
    c1.totalVideos = c2.totalVideos ∧
    c1.totalFileSize = c2.totalFileSize ∧
    (completedFilesFor w.files caseId ≠ [] → c1.lastActivity = c2.lastActivity) ∧
    (n1 = n2 → c1 = c2) := by
  rw [findCase_updateCaseFileStats] at h1
  rw [findCase_updateCaseFileStats, files_updateCaseFileStats,
    findCase_updateCaseFileStats] at h2
  cases hf : findCase w caseId with
  | none =>
    rw [hf] at h1
    simp at h1
  | some c =>
    rw [hf] at h1
    rw [hf] at h2
    simp only [Option.map_some'] at h1 h2
    injection h1 with e1
    injection h2 with e2
    subst e1
    subst e2
    refine ⟨?_, ?_, ?_, ?_, ?_⟩
    · simp [applyStats, computeCaseStats]
    · simp [applyStats, computeCaseStats]
    · simp [applyStats, computeCaseStats]
    · intro hne
      show (computeCaseStats w.files caseId n1).lastActivity =
        (computeCaseStats w.files caseId n2).lastActivity
      rw [computeCaseStats_lastActivity, computeCaseStats_lastActivity,
        if_neg hne, if_neg hne]
    · intro he
      subst he
      simp [applyStats]

/-- Claim C7 witness: for case d7 with one completed screenshot, the
records written by recomputations at times 3 and 4 agree on totalFileSize
and on lastActivity. -/
theorem updateCaseFileStats_idempotent_on_nonempty_witness :
    caseC7bAfter1.totalFileSize = caseC7bAfter2.totalFileSize ∧
    caseC7bAfter1.lastActivity = caseC7bAfter2.lastActivity := by
  have h := updateCaseFileStats_idempotent_on_nonempty worldC7b "d7" 3 4
    caseC7bAfter1 caseC7bAfter2 (by decide) (by decide)
  exact ⟨h.2.2.1, h.2.2.2.1 (by decide)⟩

/-- Claim C8 (confirmed): the caller-visible outcome of a confirmation or
file deletion does not depend on whether the best-effort Case Aggregate
Recomputation throws, and when the mandatory part succeeded (record found,
session open, object present — resp. record found by key), the outcome is
the success payload even when the recomputation fails. -/
theorem best_effort_stats_failure_invisible (w : World) (fileId fileKey : String)
    (actualFileSize : Nat) (checksum : Option String) (now : Nat) :
    ((confirmUpload w fileId fileKey actualFileSize checksum now true).1 =
      (confirmUpload w fileId fileKey actualFileSize checksum now false).1) ∧
    (∀ dKey dNow, (deleteFile w dKey dNow true).1 = (deleteFile w dKey dNow false).1) ∧
    (∀ fr, findFile w fileId = some fr → ¬ fr.expiresAt < now →
      w.s3.contains fileKey = true →
      (confirmUpload w fileId fileKey actualFileSize checksum now true).1 =
        ConfirmOutcome.ok fileId fileKey) ∧
    (∀ fr dKey dNow, w.files.find? (fun f => f.fileKey == dKey) = some fr →
      (deleteFile w dKey dNow true).1 = DeleteOutcome.ok) := by
  refine ⟨?_, ?_, ?_, ?_⟩
  · cases hfind : findFile w fileId with
    | none => simp [confirmUpload, hfind]
    | some fr =>
      by_cases hexp : fr.expiresAt < now
      · simp [confirmUpload, hfind, hexp]
      · by_cases hmem : fileKey ∈ w.s3
        · have hc : w.s3.contains fileKey = true := by simpa using hmem
          rw [confirmUpload_success_outcome w fileId fileKey actualFileSize checksum
              now true fr hfind hexp hc,
            confirmUpload_success_outcome w fileId fileKey actualFileSize checksum
              now false fr hfind hexp hc]
        · simp [confirmUpload, hfind, hexp, hmem]
  · intro dKey dNow
    cases hfind : w.files.find? (fun f => f.fileKey == dKey) with
    | none => simp [deleteFile, hfind]
    | some fr => simp [deleteFile, hfind]
  · intro fr hfind hexp hc
    exact confirmUpload_success_outcome w fileId fileKey actualFileSize checksum
      now true fr hfind hexp hc
  · intro fr dKey dNow hfind
    simp [deleteFile, hfind]

/-- Claim C8 witness: in worldC8, a confirmation and a deletion whose
aggregate recomputation throws still return their success outcomes. -/
theorem best_effort_stats_failure_invisible_witness :
    (confirmUpload worldC8 "f8" "k8" 5 none 100 true).1 =
      ConfirmOutcome.ok "f8" "k8" ∧
    (deleteFile worldC8 "k8" 0 true).1 = DeleteOutcome.ok := by
  have h := best_effort_stats_failure_invisible worldC8 "f8" "k8" 5 none 100
  exact ⟨h.2.2.1 (mkPending "f8" "k8" "c8" 500) (by decide) (by decide) (by decide),
    h.2.2.2 (mkPending "f8" "k8" "c8" 500) "k8" 0 (by decide)⟩

/-- Claim C9 (confirmed): one run of the reaper returns exactly the number
of pending-and-expired records and removes exactly those records from the
metadata store, leaving every other record untouched — independently of
which keys hold storage objects, since the storage deletion step tolerates
absence (the ids of the table are assumed pairwise distinct, as DynamoDB
guarantees for a primary key). -/
theorem cleanupExpiredUploads_reaps_exactly (w : World) (now : Nat)
    (hnodup : (w.files.map FileRecord.id).Nodup) :
    (cleanupExpiredUploads w now).1 =
      (w.files.filter (fun f => isExpiredPending f now)).length ∧
    (cleanupExpiredUploads w now).2.files =
      w.files.filter (fun f => !(isExpiredPending f now)) := by
  refine ⟨rfl, ?_⟩
  show w.files.filter _ = w.files.filter _
  apply List.filter_congr
  intro f hf
  have hany : (w.files.filter (fun g => isExpiredPending g now)).any
      (fun g => g.id == f.id) = isExpiredPending f now := by
    cases hfp : isExpiredPending f now with
    | true =>
      apply List.any_eq_true.mpr
      exact ⟨f, List.mem_filter.mpr ⟨hf, hfp⟩, by simp⟩
    | false =>
      apply List.any_eq_false.mpr
      intro g hg hid
      obtain ⟨hgmem, hgexp⟩ := List.mem_filter.mp hg
      have hgf : g = f :=
        List.inj_on_of_nodup_map hnodup hgmem hf (by simpa using hid)
      rw [hgf, hfp] at hgexp
      exact Bool.false_ne_true hgexp
  rw [hany]

/-- Claim C9 witness: in worldC9 (one expired pending record whose key k9a
holds no storage object, one live pending record, one completed record) the
reaper reports exactly one reaped record and removes exactly the expired
pending one. -/
theorem cleanupExpiredUploads_reaps_exactly_witness :
    (cleanupExpiredUploads worldC9 100).1 =
      (worldC9.files.filter (fun f => isExpiredPending f 100)).length ∧
    (cleanupExpiredUploads worldC9 100).2.files =
      worldC9.files.filter (fun f => !(isExpiredPending f 100)) :=
  cleanupExpiredUploads_reaps_exactly worldC9 100 (by decide)

/-- Claim C10 (confirmed): on an existing case, session creation with a
declared fileType outside the allow-list of the capture type returns the
validation error and creates no File record (the state is unchanged), while
an allow-listed fileType passes this validation; in particular
application/pdf is not in the screenshot allow-list and image/png is. -/
theorem getPresignedUrl_allowlist (w : World)
    (caseId captureType fileName fileType : String) (fileSize : Option Nat)
    (userId fileId fileKey : String) (now : Nat)
    (hct : captureType = "screenshot" ∨ captureType = "video")
    (hcase : checkCaseExists w caseId = true) :
    (fileType ∉ allowedTypes captureType →
      getPresignedUrl w caseId captureType fileName fileType fileSize
        userId fileId fileKey now = (PresignOutcome.invalidFileType, w)) ∧
    (fileType ∈ allowedTypes captureType →
      (getPresignedUrl w caseId captureType fileName fileType fileSize
        userId fileId fileKey now).1 ≠ PresignOutcome.invalidFileType) := by
  have hschema : (captureType == "screenshot" || captureType == "video") = true := by
    rcases hct with h | h <;> simp [h]
  constructor
  · intro hno
    simp [getPresignedUrl, hschema, hcase, hno]
  · intro hyes
    simp only [getPresignedUrl, hschema, Bool.not_true, Bool.false_eq_true, if_false,
      hcase]
    have hc : (allowedTypes captureType).contains fileType = true := by simpa using hyes
    simp only [hc, Bool.not_true, Bool.false_eq_true, if_false]
    split <;> simp

/-- Claim C10 witness: on the existing case c10, application/pdf with
captureType screenshot is rejected with the validation error and no record
is created, while image/png passes the file-type validation. -/
theorem getPresignedUrl_allowlist_witness :
    getPresignedUrl worldC10 "c10" "screenshot" "x.pdf" "application/pdf" none
      "u" "fX" "kX" 0 = (PresignOutcome.invalidFileType, worldC10) ∧
    (getPresignedUrl worldC10 "c10" "screenshot" "x.png" "image/png" none
      "u" "fX" "kX" 0).1 ≠ PresignOutcome.invalidFileType := by
  constructor
  · exact (getPresignedUrl_allowlist worldC10 "c10" "screenshot" "x.pdf"
      "application/pdf" none "u" "fX" "kX" 0 (Or.inl rfl) (by decide)).1 (by decide)
  · exact (getPresignedUrl_allowlist worldC10 "c10" "screenshot" "x.png"
      "image/png" none "u" "fX" "kX" 0 (Or.inl rfl) (by decide)).2 (by decide)

end CellebriteApi
